import Mathlib

/-
Shallow embedding of the weather_vis repository (src/weather_vis.py and
src/data_preprocess.py).  Python floats are modelled as rationals, a pandas
DataFrame as a `Table` (column-presence flags plus a list of rows), a missing
or NaN metric cell as `Option ℚ`, and a raised-and-caught exception in
`load_data` as returning `none`.
-/

namespace WeatherVis

/-- Python `int(x)`: truncation toward zero. -/
def pyInt (q : ℚ) : ℤ := if q < 0 then ⌈q⌉ else ⌊q⌋

/-- The color interpolator `get_color` of weather_vis.py (lines 247-273),
translated verbatim: clamp, degenerate-range early return of `palette[0]`
(a bare RGB triple, no alpha), otherwise piecewise-linear interpolation with
`int()` truncation per channel and a fixed alpha of 240 appended. -/
def get_color (value min_v max_v : ℚ) (palette : List (ℤ × ℤ × ℤ)) : List ℤ :=
  let v := max min_v (min value max_v)
  if max_v = min_v then
    let c0 := palette.getD 0 (0, 0, 0)
    [c0.1, c0.2.1, c0.2.2]
  else
    let r0 := (v - min_v) / (max_v - min_v)
    let pos := r0 * ((palette.length : ℚ) - 1)
    let lower_idx := pyInt pos
    let upper_idx := min (lower_idx + 1) ((palette.length : ℤ) - 1)
    let rem := pos - (lower_idx : ℚ)
    let pl := palette.getD lower_idx.toNat (0, 0, 0)
    let pu := palette.getD upper_idx.toNat (0, 0, 0)
    [ pyInt ((pl.1 : ℚ) * (1 - rem) + (pu.1 : ℚ) * rem),
      pyInt ((pl.2.1 : ℚ) * (1 - rem) + (pu.2.1 : ℚ) * rem),
      pyInt ((pl.2.2 : ℚ) * (1 - rem) + (pu.2.2 : ℚ) * rem),
      240 ]

/-- Modelled from the spec's interpolation contract (for the refinement claim
about the color mapper): clamp v, ratio r, position p = r*(N-1), lower index
floor(p), upper index min(lower+1, N-1), remainder p - lower, per-channel
linear blend truncated (not rounded) to integers, fixed alpha appended. -/
def get_color_spec (value min_v max_v : ℚ) (palette : List (ℤ × ℤ × ℤ)) : List ℤ :=
  let v := max min_v (min value max_v)
  let r0 := (v - min_v) / (max_v - min_v)
  let pos := r0 * ((palette.length : ℚ) - 1)
  let lower_idx := ⌊pos⌋
  let upper_idx := min (lower_idx + 1) ((palette.length : ℤ) - 1)
  let rem := pos - (lower_idx : ℚ)
  let pl := palette.getD lower_idx.toNat (0, 0, 0)
  let pu := palette.getD upper_idx.toNat (0, 0, 0)
  [ pyInt ((pl.1 : ℚ) * (1 - rem) + (pu.1 : ℚ) * rem),
    pyInt ((pl.2.1 : ℚ) * (1 - rem) + (pu.2.1 : ℚ) * rem),
    pyInt ((pl.2.2 : ℚ) * (1 - rem) + (pu.2.2 : ℚ) * rem),
    240 ]

/-- An RGB triple with the fixed alpha 240 appended, as `get_color` emits it
in the non-degenerate branch. -/
def rgba (c : ℤ × ℤ × ℤ) : List ℤ := [c.1, c.2.1, c.2.2, 240]

/-- pandas `Series.min()` on the nonempty column of station means. -/
def listMin (l : List ℚ) : ℚ := l.foldl min l.headI

/-- pandas `Series.max()` on the nonempty column of station means. -/
def listMax (l : List ℚ) : ℚ := l.foldl max l.headI

/-- The metric-classification test of weather_vis.py line 229:
`metric_code in ["TAVG", "TMAX", "TMIN"]`. -/
def isTempMetric (code : String) : Bool := code ∈ (["TAVG", "TMAX", "TMIN"] : List String)

/-- Domain minimum selection (weather_vis.py lines 229-236): the data minimum
for temperature metrics, 0 for the sequential metrics. -/
def min_val (code : String) (vals : List ℚ) : ℚ :=
  if isTempMetric code then listMin vals else 0

/-- Domain maximum selection with the zero-max substitution
(weather_vis.py lines 238-244): `if max_val == 0: max_val = 1.0`. -/
def max_val (vals : List ℚ) : ℚ :=
  if listMax vals = 0 then 1 else listMax vals

/-- COLOR_SCALES["temp"] of weather_vis.py (lines 209-216). -/
def tempScale : List (ℤ × ℤ × ℤ) :=
  [(69, 117, 180), (145, 191, 219), (224, 243, 248),
   (254, 224, 144), (252, 141, 89), (215, 48, 39)]

/-- COLOR_SCALES["precip"] of weather_vis.py (lines 218-225). -/
def precipScale : List (ℤ × ℤ × ℤ) :=
  [(247, 251, 255), (222, 235, 247), (198, 219, 239),
   (107, 174, 214), (49, 130, 189), (8, 81, 156)]

/-- The season dictionary of weather_vis.py (lines 39-52 and 61-74, both
identical); `dict.map` yields NaN (here `none`) outside the key set. -/
def season_map_vis (m : ℕ) : Option String :=
  if m = 12 then some "Winter"
  else if m = 1 then some "Winter"
  else if m = 2 then some "Winter"
  else if m = 3 then some "Spring"
  else if m = 4 then some "Spring"
  else if m = 5 then some "Spring"
  else if m = 6 then some "Summer"
  else if m = 7 then some "Summer"
  else if m = 8 then some "Summer"
  else if m = 9 then some "Autumn"
  else if m = 10 then some "Autumn"
  else if m = 11 then some "Autumn"
  else none

/-- The season dictionary of data_preprocess.py (lines 25-30). -/
def season_map_pre (m : ℕ) : Option String :=
  if m = 12 then some "Winter"
  else if m = 1 then some "Winter"
  else if m = 2 then some "Winter"
  else if m = 3 then some "Spring"
  else if m = 4 then some "Spring"
  else if m = 5 then some "Spring"
  else if m = 6 then some "Summer"
  else if m = 7 then some "Summer"
  else if m = 8 then some "Summer"
  else if m = 9 then some "Autumn"
  else if m = 10 then some "Autumn"
  else if m = 11 then some "Autumn"
  else none

/-- Python `calendar.month_name` (index 0 is the empty string). -/
def monthNames : List String :=
  ["", "January", "February", "March", "April", "May", "June",
   "July", "August", "September", "October", "November", "December"]

/-- One row of the tabular data.  `date` is the parse result of the DATE cell
(the month 1-12 of the parsed date, `none` when `pd.to_datetime` would raise);
`month` is the Month cell; `value` the selected metric cell (`none` = NaN). -/
structure RawRow where
  station : String
  name : String
  lat : ℚ
  lon : ℚ
  date : Option ℕ
  month : ℕ
  monthName : String
  season : Option String
  value : Option ℚ
deriving DecidableEq

/-- A DataFrame: which of the DATE / Month / Season columns are present,
plus the rows. -/
structure Table where
  hasDate : Bool
  hasMonth : Bool
  hasSeason : Bool
  rows : List RawRow
deriving DecidableEq

/-- The row transform of `load_data`'s date branch: Month, Month_Name and
Season derived from the parsed date. -/
def normDateRow (r : RawRow) : RawRow :=
  let m := r.date.getD 0
  { r with month := m, monthName := monthNames.getD m "", season := season_map_vis m }

/-- The row transform of `load_data`'s month branch: the display Month_Name
column derived from the Month cell via `calendar.month_name`. -/
def addMonthName (r : RawRow) : RawRow :=
  { r with monthName := monthNames.getD r.month "" }

/-- The season derivation of `load_data`'s month branch when the Season
column is absent. -/
def addSeason (r : RawRow) : RawRow :=
  { r with season := season_map_vis r.month }

/-- `load_data` of weather_vis.py (lines 28-80).  The date branch parses the
whole DATE column with `pd.to_datetime` (default errors=raise: one bad cell
raises, the except clause returns None) and derives Month, Month_Name, Season;
the month branch derives Month_Name via `calendar.month_name[x]` (IndexError,
hence None, for x > 12 in this ℕ model) and derives Season only when the
Season column is absent; with neither column the frame is returned unchanged. -/
def load_data (t : Table) : Option Table :=
  if t.hasDate then
    if t.rows.any (fun r => r.date.isNone) then none
    else
      some { t with
             hasMonth := true,
             hasSeason := true,
             rows := t.rows.map normDateRow }
  else if t.hasMonth then
    if t.rows.any (fun r => 13 ≤ r.month) then none
    else
      let rows1 := t.rows.map addMonthName
      if t.hasSeason then some { t with rows := rows1 }
      else
        some { t with
               hasSeason := true,
               rows := rows1.map addSeason }
  else some t

/-- The grouping key of the interactive aggregation
(weather_vis.py line 158): (STATION, NAME, LATITUDE, LONGITUDE). -/
def keyOf (r : RawRow) : String × String × ℚ × ℚ := (r.station, r.name, r.lat, r.lon)

/-- The grouping key of the batch precompute (data_preprocess.py line 19):
(STATION, NAME, LATITUDE, LONGITUDE, Month). -/
def keyM (r : RawRow) : (String × String × ℚ × ℚ) × ℕ := (keyOf r, r.month)

/-- The metric values of a station group that are actually present
(pandas mean skips NaN cells). -/
def validVals (rows : List RawRow) (k : String × String × ℚ × ℚ) : List ℚ :=
  (rows.filter (fun r => keyOf r = k)).filterMap RawRow.value

/-- The present metric values of one (station, month) group. -/
def validValsM (rows : List RawRow) (km : (String × String × ℚ × ℚ) × ℕ) : List ℚ :=
  (rows.filter (fun r => keyM r = km)).filterMap RawRow.value

/-- Arithmetic mean of a list of rationals. -/
def meanOf (vs : List ℚ) : ℚ := vs.sum / (vs.length : ℚ)

/-- `agg_df` of weather_vis.py (lines 157-162): group by station key, take the
NaN-skipping mean of the metric, then `dropna` the groups whose mean is NaN
(zero valid observations).  pandas sorts group keys; the spec leaves output
order unspecified, so first-occurrence order stands in for it here. -/
def agg_df (rows : List RawRow) : List ((String × String × ℚ × ℚ) × ℚ) :=
  ((rows.map keyOf).dedup).filterMap (fun k =>
    if validVals rows k = [] then none
    else some (k, meanOf (validVals rows k)))

/-- The Station Summary value of one station key: `some` mean when the group
has at least one valid observation, `none` when the group is absent or dropped. -/
def summaryVal (rows : List RawRow) (k : String × String × ℚ × ℚ) : Option ℚ :=
  if validVals rows k = [] then none else some (meanOf (validVals rows k))

/-- The ByMonth time-scope filter (weather_vis.py line 153). -/
def byMonth (rows : List RawRow) (m : ℕ) : List RawRow :=
  rows.filter (fun r => r.month = m)

/-- The monthly-norm row the batch precompute emits for one (station key,
Month) group: the NaN-skipping mean of the group's metric values (a NaN mean
when the group has no valid values, since the precompute does not dropna) and
the precalculated Season from the fixed mapping. -/
def precompRow (rows : List RawRow) (km : (String × String × ℚ × ℚ) × ℕ) : RawRow :=
  { station := km.1.1, name := km.1.2.1, lat := km.1.2.2.1, lon := km.1.2.2.2,
    date := none, month := km.2, monthName := "",
    season := season_map_pre km.2,
    value := if validValsM rows km = [] then none
             else some (meanOf (validValsM rows km)) }

/-- `df_agg` of data_preprocess.py (lines 19-31): one row per (station key,
Month) group. -/
def df_agg (rows : List RawRow) : List RawRow :=
  ((rows.map keyM).dedup).map (precompRow rows)

/-- A dataset with neither a DATE nor a Month column (one metric row). -/
def noTemporalTable : Table :=
  ⟨false, false, false, [⟨"S1", "N", 47, -122, none, 0, "", none, some 1⟩]⟩

/-- A dated dataset whose second row's DATE cell fails to parse. -/
def badDateTable : Table :=
  ⟨true, false, false,
   [⟨"S1", "N", 47, -122, some 1, 0, "", none, some 2⟩,
    ⟨"S2", "N", 47, -122, none, 0, "", none, some 3⟩]⟩

/-- An already-canonical dataset: Month and Season columns present, no DATE;
the stored season label deliberately disagrees with the fixed mapping. -/
def canonicalTable : Table :=
  ⟨false, true, true, [⟨"S1", "N", 47, -122, none, 1, "", some "Summer", some 2⟩]⟩

/-- Raw dated rows for the round-trip study: station S1 has two January
observations (0 and 0) and one February observation (3). -/
def raw9 : List RawRow :=
  [⟨"S1", "N", 47, -122, some 1, 1, "", none, some 0⟩,
   ⟨"S1", "N", 47, -122, some 1, 1, "", none, some 0⟩,
   ⟨"S1", "N", 47, -122, some 2, 2, "", none, some 3⟩]

/-- The station key of S1 in `raw9`. -/
def k9 : String × String × ℚ × ℚ := ("S1", "N", 47, -122)

theorem pyInt_intCast (n : ℤ) : pyInt (n : ℚ) = n := by
  unfold pyInt
  split
  · exact Int.ceil_intCast n
  · exact Int.floor_intCast n

theorem pyInt_eq_floor (q : ℚ) (h : 0 ≤ q) : pyInt q = ⌊q⌋ := by
  unfold pyInt
  exact if_neg (not_lt.2 h)

theorem foldl_max_zero (l : List ℚ) (h : ∀ x ∈ l, x = 0) : l.foldl max 0 = 0 := by
  induction l with
  | nil => rfl
  | cons a t ih =>
    have ha : a = 0 := h a (List.mem_cons_self a t)
    have ht : ∀ x ∈ t, x = 0 := fun x hx => h x (List.mem_cons_of_mem _ hx)
    simp only [List.foldl_cons, ha, max_self]
    exact ih ht

theorem listMax_of_all_zero (l : List ℚ) (h : ∀ x ∈ l, x = 0) : listMax l = 0 := by
  cases l with
  | nil => rfl
  | cons a t =>
    have ha : a = 0 := h a (List.mem_cons_self a t)
    have ht : ∀ x ∈ t, x = 0 := fun x hx => h x (List.mem_cons_of_mem _ hx)
    simp only [listMax, List.headI, List.foldl_cons, ha, max_self]
    exact foldl_max_zero t ht

/-- C1: for every value, non-degenerate domain and palette of at least two
colors, `get_color` clamps the value, computes ratio, position, floor lower
index, clamped upper index and remainder, blends per channel with truncation
and appends the fixed alpha — i.e. it coincides with the spec-side
interpolation formula. -/
theorem C1_color_interpolation (v mn mx : ℚ) (pal : List (ℤ × ℤ × ℤ))
    (hlt : mn < mx) (hN : 2 ≤ pal.length) :
    get_color v mn mx pal = get_color_spec v mn mx pal := by
  have hne : ¬ (mx = mn) := ne_of_gt hlt
  have hvmn : mn ≤ max mn (min v mx) := le_max_left _ _
  have hdpos : (0 : ℚ) < mx - mn := sub_pos.2 hlt
  have hNq : (2 : ℚ) ≤ (pal.length : ℚ) := by exact_mod_cast hN
  have hN1 : (0 : ℚ) ≤ (pal.length : ℚ) - 1 := by linarith
  have hpos : 0 ≤ (max mn (min v mx) - mn) / (mx - mn) * ((pal.length : ℚ) - 1) :=
    mul_nonneg (div_nonneg (by linarith) hdpos.le) hN1
  simp only [get_color, get_color_spec, if_neg hne]
  rw [pyInt_eq_floor _ hpos]

/-- C1 witness: the theorem instantiated on a concrete value, domain and the
precip palette. -/
theorem C1_color_interpolation_witness :
    get_color 3 0 10 precipScale = get_color_spec 3 0 10 precipScale :=
  C1_color_interpolation 3 0 10 precipScale (by norm_num) (by decide)

/-- C3: on a non-degenerate established domain with at least two palette
colors, the domain minimum maps exactly to the first palette color, the
domain maximum exactly to the last, and any value beyond the maximum is
clamped to give the same output as the maximum. -/
theorem C3_boundary_colors (mn mx : ℚ) (pal : List (ℤ × ℤ × ℤ))
    (hlt : mn < mx) (hN : 2 ≤ pal.length) :
    get_color mn mn mx pal = rgba (pal.getD 0 (0, 0, 0))
    ∧ get_color mx mn mx pal = rgba (pal.getD (pal.length - 1) (0, 0, 0))
    ∧ ∀ w, mx ≤ w → get_color w mn mx pal = get_color mx mn mx pal := by
  have hne : ¬ (mx = mn) := ne_of_gt hlt
  have hd0 : mx - mn ≠ 0 := sub_ne_zero.2 (ne_of_gt hlt)
  have hp0 : pyInt 0 = 0 := by norm_num [pyInt]
  refine ⟨?_, ?_, ?_⟩
  · simp only [get_color, if_neg hne, min_eq_left hlt.le, max_self, sub_self, zero_div,
      zero_mul, hp0, Int.toNat_zero, Int.cast_zero, sub_zero, mul_one, mul_zero, add_zero,
      pyInt_intCast, rgba]
  · have hcast : ((pal.length : ℚ) - 1) = (((pal.length : ℤ) - 1 : ℤ) : ℚ) := by push_cast; ring
    have htn : ((pal.length : ℤ) - 1).toNat = pal.length - 1 := by omega
    simp only [get_color, if_neg hne, min_self, max_eq_right hlt.le, div_self hd0, one_mul,
      hcast, pyInt_intCast, htn, sub_self, sub_zero, mul_one, mul_zero, add_zero, rgba]
  · intro w hw
    simp only [get_color, min_eq_right hw, min_self]

/-- C3 witness: the theorem instantiated at domain [0, 10] on the precip
palette, with the beyond-maximum part applied at 12. -/
theorem C3_boundary_colors_witness :
    get_color 0 0 10 precipScale = rgba (precipScale.getD 0 (0, 0, 0))
    ∧ get_color 10 0 10 precipScale = rgba (precipScale.getD 5 (0, 0, 0))
    ∧ get_color 12 0 10 precipScale = get_color 10 0 10 precipScale :=
  ⟨(C3_boundary_colors 0 10 precipScale (by norm_num) (by decide)).1,
   (C3_boundary_colors 0 10 precipScale (by norm_num) (by decide)).2.1,
   (C3_boundary_colors 0 10 precipScale (by norm_num) (by decide)).2.2 12 (by norm_num)⟩

/-- C10: the zero-max substitution does not fire on a nonzero maximum, so a
diverging-temperature metric with all station means equal (e.g. 5) yields a
degenerate domain; there `get_color` returns the palette's first entry itself,
a 3-component list without alpha, while every non-degenerate call returns a
4-component list ending in the fixed alpha 240. -/
theorem C10_degenerate_arity :
    min_val "TAVG" [5, 5] = 5
    ∧ max_val [5, 5] = 5
    ∧ (∀ vals : List ℚ, listMax vals ≠ 0 → max_val vals = listMax vals)
    ∧ (∀ (v mn : ℚ) (pal : List (ℤ × ℤ × ℤ)), pal ≠ [] →
        get_color v mn mn pal = [pal.headI.1, pal.headI.2.1, pal.headI.2.2]
        ∧ (get_color v mn mn pal).length = 3)
    ∧ (∀ (v mn mx : ℚ) (pal : List (ℤ × ℤ × ℤ)), mn < mx →
        (get_color v mn mx pal).length = 4
        ∧ (get_color v mn mx pal).getLast? = some 240) := by
  refine ⟨by decide, by decide, ?_, ?_, ?_⟩
  · intro vals h
    unfold max_val
    exact if_neg h
  · intro v mn pal hpal
    cases pal with
    | nil => exact absurd rfl hpal
    | cons c t => exact ⟨by simp [get_color], by simp [get_color]⟩
  · intro v mn mx pal hlt
    have hne : ¬ (mx = mn) := ne_of_gt hlt
    exact ⟨by simp [get_color, if_neg hne], by simp [get_color, if_neg hne]⟩

/-- C10 witness: the degenerate-domain call on the temp palette returns the
bare first color (3 components); a non-degenerate call returns 4 components
ending in 240. -/
theorem C10_degenerate_arity_witness :
    get_color 7 5 5 tempScale = [tempScale.headI.1, tempScale.headI.2.1, tempScale.headI.2.2]
    ∧ (get_color 7 5 5 tempScale).length = 3
    ∧ (get_color 7 0 10 tempScale).length = 4
    ∧ (get_color 7 0 10 tempScale).getLast? = some 240 :=
  ⟨(C10_degenerate_arity.2.2.2.1 7 5 tempScale (by decide)).1,
   (C10_degenerate_arity.2.2.2.1 7 5 tempScale (by decide)).2,
   (C10_degenerate_arity.2.2.2.2 7 0 10 tempScale (by norm_num)).1,
   (C10_degenerate_arity.2.2.2.2 7 0 10 tempScale (by norm_num)).2⟩

/-- C2 counterexample: for a diverging-temperature metric whose station means
are all 5, the domain maximum equals the domain minimum, yet the code does not
substitute 1 for the maximum (it substitutes only when the maximum is 0). -/
theorem C2_counterexample_no_substitution :
    min_val "TAVG" [5, 5] = listMax [5, 5] ∧ max_val [5, 5] ≠ 1 := by decide

/-- C2 amended: the domain maximum is substituted with 1 exactly when the
observed maximum is 0 (which covers the all-zero sequential-accumulation
case, but not a nonzero degenerate temperature domain); in the all-zero case
every station value maps to the palette's first color with the alpha
appended. -/
theorem C2_amended_zero_substitution (code : String) (vals : List ℚ)
    (pal : List (ℤ × ℤ × ℤ)) (v : ℚ)
    (hcode : isTempMetric code = false) (hpal : pal ≠ [])
    (hv : v ∈ vals) (hall : ∀ x ∈ vals, x = 0) :
    max_val vals = 1
    ∧ min_val code vals = 0
    ∧ get_color v (min_val code vals) (max_val vals) pal = rgba pal.headI
    ∧ (∀ ws : List ℚ, listMax ws ≠ 0 → max_val ws = listMax ws) := by
  have h0 : listMax vals = 0 := listMax_of_all_zero vals hall
  have hmax : max_val vals = 1 := by unfold max_val; rw [h0]; norm_num
  have hmin : min_val code vals = 0 := by unfold min_val; rw [hcode]; rfl
  have hv0 : v = 0 := hall v hv
  refine ⟨hmax, hmin, ?_, ?_⟩
  · rw [hmax, hmin, hv0]
    cases pal with
    | nil => exact absurd rfl hpal
    | cons c t =>
      have hne : ¬ ((1 : ℚ) = 0) := by norm_num
      have hp0 : pyInt 0 = 0 := by norm_num [pyInt]
      have hmin01 : min (0 : ℚ) 1 = 0 := by norm_num
      simp only [get_color, if_neg hne, hmin01, max_self, sub_zero, zero_div, zero_mul, hp0,
        Int.toNat_zero, Int.cast_zero, mul_one, mul_zero, add_zero, pyInt_intCast, rgba,
        List.getD, List.get?_cons_zero, Option.getD_some, List.headI]
  · intro ws hws
    unfold max_val
    exact if_neg hws

/-- C2 witness: the amended statement applied to the all-zero sequential case
(PRCP, both stations 0) and to a nonzero maximum (no substitution). -/
theorem C2_amended_zero_substitution_witness :
    max_val [0, 0] = 1
    ∧ min_val "PRCP" [0, 0] = 0
    ∧ get_color 0 (min_val "PRCP" [0, 0]) (max_val [0, 0]) precipScale = rgba precipScale.headI
    ∧ max_val [5, 5] = listMax [5, 5] := by
  obtain ⟨h1, h2, h3, h4⟩ :=
    C2_amended_zero_substitution "PRCP" [0, 0] precipScale 0
      (by decide) (by decide) (by decide) (by decide)
  exact ⟨h1, h2, h3, h4 [5, 5] (by decide)⟩

/-- C5: the season mapping is total and deterministic on months 1-12 with the
stated values, and the interactive loader and the batch precompute use the
same mapping (the two dictionaries agree on every input). -/
theorem C5_season_mapping :
    (∀ m : ℕ, season_map_vis m = season_map_pre m)
    ∧ (∀ i : Fin 12, (season_map_vis (i.val + 1)).isSome = true)
    ∧ season_map_vis 12 = some "Winter" ∧ season_map_vis 1 = some "Winter"
    ∧ season_map_vis 2 = some "Winter" ∧ season_map_vis 3 = some "Spring"
    ∧ season_map_vis 4 = some "Spring" ∧ season_map_vis 5 = some "Spring"
    ∧ season_map_vis 6 = some "Summer" ∧ season_map_vis 7 = some "Summer"
    ∧ season_map_vis 8 = some "Summer" ∧ season_map_vis 9 = some "Autumn"
    ∧ season_map_vis 10 = some "Autumn" ∧ season_map_vis 11 = some "Autumn" :=
  ⟨fun _ => rfl, by decide, rfl, rfl, rfl, rfl, rfl, rfl, rfl, rfl, rfl, rfl, rfl, rfl⟩

theorem load_data_month_keep (t : Table) (hd : t.hasDate = false) (hm : t.hasMonth = true)
    (hs : t.hasSeason = true) (hr : t.rows.any (fun r => 13 ≤ r.month) = false) :
    load_data t = some { t with rows := t.rows.map addMonthName } := by
  unfold load_data
  simp [hd, hm, hs, hr]

theorem load_data_month_derive (t : Table) (hd : t.hasDate = false) (hm : t.hasMonth = true)
    (hs : t.hasSeason = false) (hr : t.rows.any (fun r => 13 ≤ r.month) = false) :
    load_data t
      = some { t with hasSeason := true, rows := (t.rows.map addMonthName).map addSeason } := by
  unfold load_data
  simp [hd, hm, hs, hr]

/-- C6 counterexample: a dataset with neither a DATE nor a Month column does
not make the load fail — `load_data` returns the frame unchanged, so a result
is produced and handed downstream. -/
theorem C6_counterexample_no_schema_error :
    load_data noTemporalTable = some noTemporalTable
    ∧ load_data noTemporalTable ≠ none := by
  constructor
  · rfl
  · intro h
    cases h

/-- C6 amended: for every input dataset with neither a date column nor a
month column, the load does not fail: the dataset is returned unchanged, with
no month or season fields derived, and any failure surfaces only in
downstream filtering. -/
theorem C6_amended_returned_unchanged (t : Table)
    (hd : t.hasDate = false) (hm : t.hasMonth = false) :
    load_data t = some t := by
  unfold load_data
  simp [hd, hm]

/-- C6 witness: the amended statement at the concrete temporal-column-free
table. -/
theorem C6_amended_returned_unchanged_witness :
    load_data ⟨false, false, false, []⟩ = some ⟨false, false, false, []⟩ :=
  C6_amended_returned_unchanged ⟨false, false, false, []⟩ rfl rfl

/-- C7 counterexample: one unparseable DATE cell aborts the whole load — the
parse exception is caught and `load_data` returns no rows at all, so the
well-formed first row is not preserved and no drop count exists. -/
theorem C7_counterexample_abort :
    load_data badDateTable = none := by rfl

/-- C7 amended: when a date column is present, a row whose date fails to
parse aborts the entire load: the exception from parsing the column is caught,
an error is surfaced, and no result (not even the remaining rows) is
returned; no count of dropped rows is recorded. -/
theorem C7_amended_abort_on_bad_date (t : Table) (hd : t.hasDate = true)
    (hbad : t.rows.any (fun r => r.date.isNone) = true) :
    load_data t = none := by
  unfold load_data
  simp [hd, hbad]

/-- C7 witness: the amended statement at the concrete table with one good and
one unparseable date. -/
theorem C7_amended_abort_on_bad_date_witness :
    load_data badDateTable = none :=
  C7_amended_abort_on_bad_date badDateTable rfl (by decide)

/-- C8: running the normalizer's month branch on an already-canonical table
(month and season present, no date) preserves every season label verbatim
(only the display Month_Name column is added), and the branch derives seasons
from the fixed mapping only when the season column is absent. -/
theorem C8_normalizer_preserves_season (t : Table) (hd : t.hasDate = false)
    (hm : t.hasMonth = true) (hs : t.hasSeason = true)
    (hr : t.rows.any (fun r => 13 ≤ r.month) = false) :
    load_data t = some { t with rows := t.rows.map addMonthName }
    ∧ (load_data t).map (fun u => u.rows.map RawRow.season)
      = some (t.rows.map RawRow.season)
    ∧ (∀ u : Table, u.hasDate = false → u.hasMonth = true → u.hasSeason = false →
        u.rows.any (fun r => 13 ≤ r.month) = false →
        (load_data u).map (fun w => w.rows.map RawRow.season)
          = some (u.rows.map (fun r => season_map_vis r.month))) := by
  have hkeep := load_data_month_keep t hd hm hs hr
  refine ⟨hkeep, ?_, ?_⟩
  · rw [hkeep]
    simp [List.map_map]
    exact fun a _ => rfl
  · intro u h1 h2 h3 h4
    rw [load_data_month_derive u h1 h2 h3 h4]
    simp [List.map_map]
    exact fun a _ => rfl

/-- C8 witness: a canonical table whose stored season label ("Summer" for
January) disagrees with the mapping keeps it verbatim through the load. -/
theorem C8_normalizer_preserves_season_witness :
    (load_data canonicalTable).map (fun u => u.rows.map RawRow.season)
      = some [some "Summer"] :=
  ((C8_normalizer_preserves_season canonicalTable rfl rfl rfl (by decide)).2.1).trans
    (by decide)

theorem validVals_ne_nil_mem_keys (rows : List RawRow) (k : String × String × ℚ × ℚ)
    (h : validVals rows k ≠ []) : k ∈ (rows.map keyOf).dedup := by
  rw [List.mem_dedup]
  unfold validVals at h
  rcases List.exists_mem_of_ne_nil _ h with ⟨q, hq⟩
  rcases List.mem_filterMap.1 hq with ⟨r, hr, _⟩
  rcases List.mem_filter.1 hr with ⟨hrows, hkey⟩
  exact List.mem_map.2 ⟨r, hrows, of_decide_eq_true hkey⟩

theorem agg_df_mem_iff (rows : List RawRow) (k : String × String × ℚ × ℚ) (v : ℚ) :
    (k, v) ∈ agg_df rows ↔ validVals rows k ≠ [] ∧ v = meanOf (validVals rows k) := by
  unfold agg_df
  rw [List.mem_filterMap]
  constructor
  · rintro ⟨a, _, hfa⟩
    by_cases hnil : validVals rows a = []
    · rw [if_pos hnil] at hfa
      exact absurd hfa (by simp)
    · rw [if_neg hnil] at hfa
      have hp : (a, meanOf (validVals rows a)) = (k, v) := Option.some.inj hfa
      have hak : a = k := congrArg Prod.fst hp
      have hmv : meanOf (validVals rows a) = v := congrArg Prod.snd hp
      subst hak
      exact ⟨hnil, hmv.symm⟩
  · rintro ⟨hne, hv⟩
    exact ⟨k, validVals_ne_nil_mem_keys rows k hne, by rw [if_neg hne, hv]⟩

theorem map_fst_agg_df (rows : List RawRow) :
    (agg_df rows).map Prod.fst
      = ((rows.map keyOf).dedup).filter (fun k => !((validVals rows k).isEmpty)) := by
  unfold agg_df
  induction (rows.map keyOf).dedup with
  | nil => rfl
  | cons a l ih =>
    by_cases h : validVals rows a = []
    · rw [List.filterMap_cons, if_pos h, List.filter_cons]
      simp [h, ih]
    · rw [List.filterMap_cons, if_neg h, List.filter_cons]
      simp [h, ih]

theorem agg_df_keys_nodup (rows : List RawRow) : ((agg_df rows).map Prod.fst).Nodup := by
  rw [map_fst_agg_df]
  exact (List.nodup_dedup _).filter _

/-- C4: the aggregator groups rows by the (station, name, latitude,
longitude) key, emits at most one summary row per group, characterizes
membership as the arithmetic mean over exactly the present (non-NaN) metric
values — excluded from numerator and denominator alike — and drops exactly
the groups with zero valid observations; concretely, values [NaN, 5.0] for
station S3 give mean 5.0. -/
theorem C4_aggregator_mean (rows : List RawRow) :
    ((agg_df rows).map Prod.fst).Nodup
    ∧ ((agg_df rows).map Prod.fst
        = ((rows.map keyOf).dedup).filter (fun k => !((validVals rows k).isEmpty)))
    ∧ (∀ k v, (k, v) ∈ agg_df rows ↔ validVals rows k ≠ [] ∧ v = meanOf (validVals rows k))
    ∧ agg_df [⟨"S3", "N", 47, -122, none, 1, "", none, none⟩,
              ⟨"S3", "N", 47, -122, none, 2, "", none, some 5⟩]
        = [(("S3", "N", 47, -122), 5)] :=
  ⟨agg_df_keys_nodup rows, map_fst_agg_df rows,
   fun k v => agg_df_mem_iff rows k v,
   by norm_num [agg_df, validVals, keyOf, meanOf, List.dedup, List.filterMap_cons,
        List.filterMap_nil, List.filter_cons, List.filter_nil, Prod.mk.injEq]; rfl⟩

/-- C4 witness: the missing-value scenario evaluated concretely through the
theorem. -/
theorem C4_aggregator_mean_witness :
    agg_df [⟨"S3", "N", 47, -122, none, 1, "", none, none⟩,
            ⟨"S3", "N", 47, -122, none, 2, "", none, some 5⟩]
      = [(("S3", "N", 47, -122), 5)] :=
  (C4_aggregator_mean []).2.2.2

theorem keyOf_precompRow (rows : List RawRow) (km : (String × String × ℚ × ℚ) × ℕ) :
    keyOf (precompRow rows km) = km.1 := rfl

theorem month_precompRow (rows : List RawRow) (km : (String × String × ℚ × ℚ) × ℕ) :
    (precompRow rows km).month = km.2 := rfl

theorem meanOf_singleton (x : ℚ) : meanOf [x] = x := by
  simp [meanOf]

theorem validVals_byMonth (rows : List RawRow) (m : ℕ) (k : String × String × ℚ × ℚ) :
    validVals (byMonth rows m) k = validValsM rows (k, m) := by
  unfold validVals validValsM byMonth
  rw [List.filter_filter]
  have hp : (fun a : RawRow => decide (keyOf a = k) && decide (a.month = m))
      = (fun r : RawRow => decide (keyM r = (k, m))) := by
    funext r
    by_cases h1 : keyOf r = k <;> by_cases h2 : r.month = m <;>
      simp [keyM, h1, h2, Prod.ext_iff]
  rw [hp]

theorem validValsM_ne_nil_mem_keys (rows : List RawRow)
    (km : (String × String × ℚ × ℚ) × ℕ) (h : validValsM rows km ≠ []) :
    km ∈ (rows.map keyM).dedup := by
  rw [List.mem_dedup]
  unfold validValsM at h
  rcases List.exists_mem_of_ne_nil _ h with ⟨q, hq⟩
  rcases List.mem_filterMap.1 hq with ⟨r, hr, _⟩
  rcases List.mem_filter.1 hr with ⟨hrows, hkey⟩
  exact List.mem_map.2 ⟨r, hrows, of_decide_eq_true hkey⟩

theorem validVals_byMonth_map_precomp (raw : List RawRow) (m : ℕ)
    (k : String × String × ℚ × ℚ) (l : List ((String × String × ℚ × ℚ) × ℕ))
    (hl : l.Nodup) :
    validVals (byMonth (l.map (precompRow raw)) m) k
      = if (k, m) ∈ l then
          (if validValsM raw (k, m) = [] then []
           else [meanOf (validValsM raw (k, m))])
        else [] := by
  induction l with
  | nil => simp [validVals, byMonth]
  | cons a t ih =>
    rw [List.nodup_cons] at hl
    obtain ⟨ha, ht⟩ := hl
    have iht := ih ht
    rw [List.map_cons]
    unfold validVals byMonth at iht ⊢
    rw [List.filter_cons]
    by_cases hm2 : (precompRow raw a).month = m
    · rw [if_pos (by simpa using hm2)]
      rw [List.filter_cons]
      by_cases hk : keyOf (precompRow raw a) = k
      · rw [if_pos (by simpa using hk)]
        have ha2 : a = (k, m) := by
          rw [keyOf_precompRow] at hk
          rw [month_precompRow] at hm2
          exact Prod.ext_iff.2 ⟨hk, hm2⟩
        subst ha2
        rw [List.filterMap_cons, iht, if_neg ha, if_pos (List.mem_cons_self _ _)]
        by_cases hv : validValsM raw (k, m) = []
        · simp [precompRow, hv]
        · simp [precompRow, hv]
      · rw [if_neg (by simpa using hk)]
        have hne : ¬ ((k, m) = a) := by
          intro he
          rw [keyOf_precompRow] at hk
          exact hk (by rw [← he])
        rw [iht]
        by_cases hmem : (k, m) ∈ t
        · rw [if_pos hmem, if_pos (List.mem_cons_of_mem _ hmem)]
        · rw [if_neg hmem, if_neg (by simp [List.mem_cons, hne, hmem])]
    · rw [if_neg (by simpa using hm2)]
      have hne : ¬ ((k, m) = a) := by
        intro he
        rw [month_precompRow] at hm2
        exact hm2 (by rw [← he])
      rw [iht]
      by_cases hmem : (k, m) ∈ t
      · rw [if_pos hmem, if_pos (List.mem_cons_of_mem _ hmem)]
      · rw [if_neg hmem, if_neg (by simp [List.mem_cons, hne, hmem])]

theorem summaryVal_byMonth_df_agg (raw : List RawRow) (m : ℕ)
    (k : String × String × ℚ × ℚ) :
    summaryVal (byMonth (df_agg raw) m) k = summaryVal (byMonth raw m) k := by
  have hL := validVals_byMonth_map_precomp raw m k ((raw.map keyM).dedup)
    (List.nodup_dedup _)
  have hR : validVals (byMonth raw m) k = validValsM raw (k, m) :=
    validVals_byMonth raw m k
  unfold summaryVal
  unfold df_agg
  rw [hR, hL]
  by_cases hmem : (k, m) ∈ (raw.map keyM).dedup
  · rw [if_pos hmem]
    by_cases hv : validValsM raw (k, m) = []
    · rw [if_pos hv, if_pos rfl, if_pos hv]
    · rw [if_neg hv, if_neg (by simp), if_neg hv, meanOf_singleton]
  · rw [if_neg hmem]
    have hv : validValsM raw (k, m) = [] := by
      by_contra hne
      exact hmem (validValsM_ne_nil_mem_keys raw (k, m) hne)
    rw [if_pos rfl, if_pos hv]

theorem byMonth_map_addMonthName (rows : List RawRow) (m : ℕ) :
    byMonth (rows.map addMonthName) m = (byMonth rows m).map addMonthName := by
  unfold byMonth
  rw [List.filter_map]
  rfl

theorem validVals_map_addMonthName (rows : List RawRow) (k : String × String × ℚ × ℚ) :
    validVals (rows.map addMonthName) k = validVals rows k := by
  unfold validVals
  rw [List.filter_map, List.filterMap_map]
  rfl

theorem summaryVal_map_addMonthName (rows : List RawRow) (k : String × String × ℚ × ℚ) :
    summaryVal (rows.map addMonthName) k = summaryVal rows k := by
  unfold summaryVal
  rw [validVals_map_addMonthName]

/-- C9 counterexample: for raw9 (station S1: January values 0 and 0,
February value 3) the precompute output re-loaded through the month branch
and aggregated AllTime gives the mean of monthly means 3/2, while aggregating
the raw input directly gives 1 — a difference far beyond the 1e-6 tolerance,
so the round-trip claim fails for the AllTime scope. -/
theorem C9_counterexample_alltime :
    (load_data ⟨false, true, true, df_agg raw9⟩).map (fun t => summaryVal t.rows k9)
      = some (some (3 / 2))
    ∧ summaryVal raw9 k9 = some 1
    ∧ ¬ ((3 / 2 : ℚ) - 1 ≤ 1 / 1000000) := by
  have hload := load_data_month_keep ⟨false, true, true, df_agg raw9⟩ rfl rfl rfl (by decide)
  refine ⟨?_, ?_, by norm_num⟩
  · rw [hload]
    show some (summaryVal ((df_agg raw9).map addMonthName) k9) = some (some (3 / 2))
    rw [summaryVal_map_addMonthName]
    norm_num [df_agg, raw9, k9, precompRow, keyM, keyOf, summaryVal, validVals, validValsM,
      meanOf, List.dedup, List.filterMap_cons, List.filterMap_nil, List.filter_cons,
      List.filter_nil, Prod.mk.injEq]
    simp
  · norm_num [raw9, k9, summaryVal, validVals, keyOf, meanOf, List.filterMap_cons,
      List.filterMap_nil, List.filter_cons, List.filter_nil, Prod.mk.injEq]
    simp

/-- C9 amended: the precompute output re-loaded through the month branch
reproduces the raw Station Summary values exactly for every ByMonth scope
(each precomputed row is that month's mean, and the mean of a singleton is
itself); the AllTime and BySeason scopes compute the mean of monthly means,
which the counterexample shows need not match direct aggregation when the
months in scope have unequal observation counts. -/
theorem C9_amended_bymonth_roundtrip (raw : List RawRow) (mo : ℕ)
    (k : String × String × ℚ × ℚ)
    (hm : ((df_agg raw).any (fun r => 13 ≤ r.month)) = false) :
    load_data ⟨false, true, true, df_agg raw⟩
      = some ⟨false, true, true, (df_agg raw).map addMonthName⟩
    ∧ summaryVal (byMonth ((df_agg raw).map addMonthName) mo) k
      = summaryVal (byMonth raw mo) k := by
  constructor
  · exact load_data_month_keep ⟨false, true, true, df_agg raw⟩ rfl rfl rfl hm
  · rw [byMonth_map_addMonthName, summaryVal_map_addMonthName]
    exact summaryVal_byMonth_df_agg raw mo k

/-- C9 witness: the amended round-trip applied to raw9, January scope,
station S1. -/
theorem C9_amended_bymonth_roundtrip_witness :
    summaryVal (byMonth ((df_agg raw9).map addMonthName) 1) k9
      = summaryVal (byMonth raw9 1) k9 :=
  (C9_amended_bymonth_roundtrip raw9 1 k9 (by decide)).2

end WeatherVis
